import Mathlib

/-!
Formal model of the LioraWave backend (src/backend/main.py).

Modelling choices:
* Python strings are Lean strings viewed as lists of code points.
* Python floats are exact rationals; the float literals 0.1, 0.2, 1.5, 7.5
  of the source are the corresponding exact rationals, and Python round(x, 2)
  is modelled by round-half-to-even on rationals.
* Python dicts are ordered association lists; json.loads is modelled by an
  executable JSON reader producing such dicts, with strict-JSON numbers.
* The external model service (Ollama) is modelled by an explicit outcome
  value: either an exception during the request (transport error, timeout,
  unreadable body) or an HTTP response carrying a status code and, for
  status 200, the completion string found under the response key.
* Exceptions in the Python code are modelled by Option / Except: a function
  that can raise returns none / .error where the exception escapes.
-/

attribute [local semireducible] Rat.add Rat.sub Rat.mul Rat.inv Rat.ofScientific

set_option maxRecDepth 16000

/-- The characters removed by Python str.strip with no arguments (ASCII part). -/
def isPyWs (c : Char) : Bool :=
  c = ' ' || c = '\t' || c = '\n' || c = '\r' || c = '\x0b' || c = '\x0c'

/-- Python str.strip on a list of code points. -/
def stripChars (cs : List Char) : List Char :=
  ((cs.dropWhile isPyWs).reverse.dropWhile isPyWs).reverse

/-- Python str.strip. -/
def pyStrip (s : String) : String := String.mk (stripChars s.data)

/-- JSON values as produced by json.loads; objects keep insertion order like
Python dicts. -/
inductive JsonValue where
  | null
  | bool (b : Bool)
  | num (q : ℚ)
  | str (s : String)
  | arr (elems : List JsonValue)
  | obj (fields : List (String × JsonValue))

/-- The whitespace accepted between JSON tokens by json.loads. -/
def isJsonWs (c : Char) : Bool :=
  c = ' ' || c = '\t' || c = '\n' || c = '\r'

/-- Drop leading JSON whitespace. -/
def skipJsonWs : List Char → List Char
  | [] => []
  | c :: cs => if isJsonWs c then skipJsonWs cs else c :: cs

/-- Value of a hexadecimal digit. -/
def hexVal (c : Char) : Option Nat :=
  if '0' ≤ c ∧ c ≤ '9' then some (c.toNat - 48)
  else if 'a' ≤ c ∧ c ≤ 'f' then some (c.toNat - 87)
  else if 'A' ≤ c ∧ c ≤ 'F' then some (c.toNat - 55)
  else none

/-- Insert into a JSON object under Python dict semantics: an existing key is
overwritten in place, a new key is appended at the end. -/
def objInsert : List (String × JsonValue) → String → JsonValue → List (String × JsonValue)
  | [], k, v => [(k, v)]
  | (k1, v1) :: rest, k, v =>
    if k = k1 then (k1, v) :: rest else (k1, v1) :: objInsert rest k v

/-- Parse the body of a JSON string after the opening quote, returning the
decoded code points and the remaining input.  Strict mode: raw control
characters are rejected, escapes are decoded (surrogate pairing is not
modelled: each \u escape becomes one code point). -/
def parseStringBody : Nat → List Char → Option (List Char × List Char)
  | 0, _ => none
  | _, [] => none
  | fuel + 1, c :: cs =>
    if c = '"' then some ([], cs)
    else if c = '\\' then
      match cs with
      | [] => none
      | e :: cs1 =>
        let step : Option (Char × List Char) :=
          if e = '"' ∨ e = '\\' ∨ e = '/' then some (e, cs1)
          else if e = 'b' then some ('\x08', cs1)
          else if e = 'f' then some ('\x0c', cs1)
          else if e = 'n' then some ('\n', cs1)
          else if e = 'r' then some ('\r', cs1)
          else if e = 't' then some ('\t', cs1)
          else if e = 'u' then
            match cs1 with
            | h1 :: h2 :: h3 :: h4 :: cs2 =>
              match hexVal h1, hexVal h2, hexVal h3, hexVal h4 with
              | some a, some b, some c2, some d =>
                some (Char.ofNat (((a * 16 + b) * 16 + c2) * 16 + d), cs2)
              | _, _, _, _ => none
            | _ => none
          else none
        match step with
        | none => none
        | some (ch, rest) =>
          match parseStringBody fuel rest with
          | none => none
          | some (acc, rest1) => some (ch :: acc, rest1)
    else if c.toNat < 32 then none
    else
      match parseStringBody fuel cs with
      | none => none
      | some (acc, rest1) => some (c :: acc, rest1)

/-- Decimal value of a digit list. -/
def digitsToNat (ds : List Char) : ℕ :=
  ds.foldl (fun a c => a * 10 + (c.toNat - 48)) 0

/-- Split a leading run of decimal digits. -/
def spanDigits (cs : List Char) : List Char × List Char :=
  (cs.takeWhile Char.isDigit, cs.dropWhile Char.isDigit)

/-- Optional fractional part of a JSON number. -/
def parseFrac : List Char → Option (ℚ × List Char)
  | '.' :: r =>
    match spanDigits r with
    | ([], _) => none
    | (fds, rr) => some ((digitsToNat fds : ℚ) / (10 : ℚ) ^ fds.length, rr)
  | cs => some (0, cs)

/-- Optional exponent part of a JSON number, returned as a multiplier. -/
def parseExp : List Char → Option (ℚ × List Char)
  | c :: r =>
    if c = 'e' ∨ c = 'E' then
      let (esign, r1) : Bool × List Char :=
        match r with
        | '+' :: t => (false, t)
        | '-' :: t => (true, t)
        | t => (false, t)
      match spanDigits r1 with
      | ([], _) => none
      | (eds, rr) =>
        let e := digitsToNat eds
        some (if esign then 1 / (10 : ℚ) ^ e else (10 : ℚ) ^ e, rr)
    else some (1, c :: r)
  | [] => some (1, [])

/-- Unsigned JSON number (strict grammar: no leading zeros). -/
def parseUnsignedNumber (cs : List Char) : Option (ℚ × List Char) :=
  match spanDigits cs with
  | ([], _) => none
  | (ids, r1) =>
    if 1 < ids.length ∧ ids.headD 'x' = '0' then none
    else
      match parseFrac r1 with
      | none => none
      | some (fv, r2) =>
        match parseExp r2 with
        | none => none
        | some (em, r3) => some (((digitsToNat ids : ℚ) + fv) * em, r3)

/-- JSON number, with optional leading minus sign. -/
def parseNumber (cs : List Char) : Option (ℚ × List Char) :=
  match cs with
  | '-' :: r => (parseUnsignedNumber r).map (fun p => (-p.1, p.2))
  | _ => parseUnsignedNumber cs

/-- Mode of the JSON reader: a value, the members of an object, or the
elements of an array. -/
inductive PMode where
  | value
  | members (acc : List (String × JsonValue))
  | elems (acc : List JsonValue)

/-- Fuel-indexed recursive JSON reader. -/
def parseCore : Nat → PMode → List Char → Option (JsonValue × List Char)
  | 0, _, _ => none
  | fuel + 1, .value, cs0 =>
    match skipJsonWs cs0 with
    | [] => none
    | c :: cs =>
      if c = '\x7b' then
        match skipJsonWs cs with
        | '\x7d' :: r => some (.obj [], r)
        | _ => parseCore fuel (.members []) cs
      else if c = '[' then
        match skipJsonWs cs with
        | ']' :: r => some (.arr [], r)
        | _ => parseCore fuel (.elems []) cs
      else if c = '"' then
        match parseStringBody (cs.length + 1) cs with
        | some (sc, r) => some (.str (String.mk sc), r)
        | none => none
      else if c = 't' then
        match cs with
        | 'r' :: 'u' :: 'e' :: r => some (.bool true, r)
        | _ => none
      else if c = 'f' then
        match cs with
        | 'a' :: 'l' :: 's' :: 'e' :: r => some (.bool false, r)
        | _ => none
      else if c = 'n' then
        match cs with
        | 'u' :: 'l' :: 'l' :: r => some (.null, r)
        | _ => none
      else if c = '-' ∨ c.isDigit = true then
        match parseNumber (c :: cs) with
        | some (q, r) => some (.num q, r)
        | none => none
      else none
  | fuel + 1, .members acc, cs0 =>
    match skipJsonWs cs0 with
    | '"' :: rest =>
      match parseStringBody (rest.length + 1) rest with
      | none => none
      | some (kc, r1) =>
        match skipJsonWs r1 with
        | ':' :: r2 =>
          match parseCore fuel .value r2 with
          | none => none
          | some (v, r3) =>
            match skipJsonWs r3 with
            | ',' :: r4 => parseCore fuel (.members (objInsert acc (String.mk kc) v)) r4
            | '\x7d' :: r4 => some (.obj (objInsert acc (String.mk kc) v), r4)
            | _ => none
        | _ => none
    | _ => none
  | fuel + 1, .elems acc, cs0 =>
    match parseCore fuel .value cs0 with
    | none => none
    | some (v, r) =>
      match skipJsonWs r with
      | ',' :: r2 => parseCore fuel (.elems (acc ++ [v])) r2
      | ']' :: r2 => some (.arr (acc ++ [v]), r2)
      | _ => none

/-- json.loads on a list of code points: parse one value, then require only
whitespace to remain. -/
def parseJsonChars (cs : List Char) : Option JsonValue :=
  match parseCore (2 * cs.length + 2) .value cs with
  | some (v, rest) => if (skipJsonWs rest).isEmpty then some v else none
  | none => none

/-- json.loads on a string; none models a raised JSONDecodeError. -/
def parseJsonStr (s : String) : Option JsonValue := parseJsonChars s.data

/-- Index of the first occurrence of a character (Python str.find). -/
def firstIdxOf (cs : List Char) (c : Char) : Option Nat :=
  cs.findIdx? (· = c)

/-- Index of the last occurrence of a character (Python str.rfind). -/
def lastIdxOf (cs : List Char) (c : Char) : Option Nat :=
  match cs.reverse.findIdx? (· = c) with
  | some i => some (cs.length - 1 - i)
  | none => none

/-- AdvancedStoryAnalyzer._clean_json_response: trim, strip a leading
"```json" fence and a trailing "```" fence when present, return the result
when it already parses as JSON, otherwise slice from the first opening brace
to the last closing brace (inclusive).  none models the re-raised
JSONDecodeError when no such slice exists. -/
def cleanJsonResponse (response_text : String) : Option String :=
  let s0 := stripChars response_text.data
  let s1 := if ("```json".data).isPrefixOf s0 then s0.drop 7 else s0
  let s2 := if ("```".data).isSuffixOf s1 then s1.take (s1.length - 3) else s1
  if (parseJsonChars s2).isSome then some (String.mk s2)
  else
    match firstIdxOf s2 '\x7b', lastIdxOf s2 '\x7d' with
    | some st, some en =>
      if st ≤ en then some (String.mk ((s2.drop st).take (en + 1 - st))) else none
    | _, _ => none

/-- The sanitization step as seen by the caller: _clean_json_response followed
by the json.loads at the call site; returns the JSON string actually parsed,
none when the combination raises (which the analyzer turns into fallback). -/
def sanitize (raw : String) : Option String :=
  match cleanJsonResponse raw with
  | none => none
  | some s => if (parseJsonStr s).isSome then some s else none

/-- A Python dict holding JSON values, in insertion order. -/
abbrev PyDict := List (String × JsonValue)

/-- Python d[k] read / d.get(k). -/
def dictGet (d : PyDict) (k : String) : Option JsonValue :=
  match d with
  | [] => none
  | (k1, v) :: rest => if k = k1 then some v else dictGet rest k

/-- Python d.get(k, default). -/
def dictGetD (d : PyDict) (k : String) (dflt : JsonValue) : JsonValue :=
  (dictGet d k).getD dflt

/-- Python d[k] = v: overwrite in place, or append a new key. -/
def dictSet (d : PyDict) (k : String) (v : JsonValue) : PyDict :=
  match d with
  | [] => [(k, v)]
  | (k1, v1) :: rest => if k = k1 then (k1, v) :: rest else (k1, v1) :: dictSet rest k v

/-- Python len on a JSON value; none models a TypeError. -/
def pyLen : JsonValue → Option ℕ
  | .arr l => some l.length
  | .str s => some s.length
  | .obj fs => some fs.length
  | _ => none

/-- A JSON value used as a Python number (bool counts as 0/1); none models a
TypeError in arithmetic. -/
def pyNum : JsonValue → Option ℚ
  | .num q => some q
  | .bool b => some (if b then 1 else 0)
  | _ => none

/-- Python min(10, x); none models a TypeError on unordered operands.  True
and False compare below 10 and are returned unchanged. -/
def pyMin10 : JsonValue → Option JsonValue
  | .num q => some (.num (min 10 q))
  | .bool b => some (.bool b)
  | _ => none

/-- Round-half-to-even to an integer, the behaviour of Python round. -/
def roundHalfEven (x : ℚ) : ℤ :=
  if x - ⌊x⌋ < 1 / 2 then ⌊x⌋
  else if 1 / 2 < x - ⌊x⌋ then ⌊x⌋ + 1
  else if ⌊x⌋ % 2 = 0 then ⌊x⌋ else ⌊x⌋ + 1

/-- Python round(x, 2). -/
def pyRound2 (x : ℚ) : ℚ := (roundHalfEven (x * 100) : ℚ) / 100

/-- The base_costs table of _calculate_cost_estimate. -/
def base_costs : List (String × ℚ) :=
  [("gaming", 5000), ("education", 3000), ("architecture", 8000), ("ecommerce", 2000)]

/-- Python dict.get(k, default) on a numeric table. -/
def assocGetD (l : List (String × ℚ)) (k : String) (dflt : ℚ) : ℚ :=
  match l with
  | [] => dflt
  | (k1, v) :: rest => if k = k1 then v else assocGetD rest k dflt

/-- AdvancedStoryAnalyzer._calculate_cost_estimate on a raw analysis dict;
none models a TypeError escaping (caught further up).  Cost is the industry
base cost times complexity over five, times one plus a tenth of the combined
character and object count, times one fifth, rounded to 2 decimals. -/
def calculate_cost_estimate (analysis : PyDict) (industry : String) : Option ℚ :=
  match pyNum (dictGetD analysis "complexity_score" (.num 5)),
        pyLen (dictGetD analysis "characters" (.arr [])),
        pyLen (dictGetD analysis "objects" (.arr [])) with
  | some complexity, some character_count, some object_count =>
    some (pyRound2 (assocGetD base_costs industry 3000 * (complexity / 5)
      * (1 + ((character_count : ℚ) + (object_count : ℚ)) * 0.1) * 0.2))
  | _, _, _ => none

/-- The fixed baseline dict of get_fallback_analysis. -/
def fallback_base : PyDict :=
  [("characters", .arr [.str "knight", .str "dragon"]),
   ("setting", .str "ancient castle courtyard"),
   ("objects", .arr [.str "sword", .str "treasure chest", .str "magic crystal"]),
   ("mood", .str "epic and dramatic"),
   ("actions", .arr [.str "confronting", .str "guarding", .str "observing"]),
   ("complexity_score", .num 7.5),
   ("estimated_render_cost", .num 1500)]

/-- Python list.extend on a dict entry holding a list. -/
def dictExtendList (d : PyDict) (k : String) (vs : List JsonValue) : PyDict :=
  match dictGet d k with
  | some (.arr l) => dictSet d k (.arr (l ++ vs))
  | _ => d

/-- AdvancedStoryAnalyzer.get_fallback_analysis.  The story text is lowercased
in the source but never used; the result depends only on the industry. -/
def get_fallback_analysis (_story_text industry : String) : PyDict :=
  if industry = "education" then
    dictSet (dictExtendList fallback_base "objects"
        [.str "educational diagram", .str "information panel"])
      "mood" (.str "informative and clear")
  else if industry = "architecture" then
    dictSet (dictSet fallback_base "setting" (.str "modern architectural space"))
      "objects" (.arr [.str "building model", .str "blueprint", .str "scale figure"])
  else fallback_base

/-- The StoryAnalysis pydantic model. -/
structure StoryAnalysis where
  characters : List String
  setting : String
  objects : List String
  mood : String
  actions : List String
  complexity_score : ℚ
  estimated_render_cost : ℚ

/-- Pydantic coercion of a JSON value to a str field. -/
def asStr : JsonValue → Option String
  | .str s => some s
  | _ => none

/-- Pydantic coercion of a JSON value to a list-of-str field. -/
def asStrList : JsonValue → Option (List String)
  | .arr l => l.mapM asStr
  | _ => none

/-- Pydantic coercion of a JSON value to a float field. -/
def asFloat : JsonValue → Option ℚ
  | .num q => some q
  | _ => none

/-- StoryAnalysis(**d): pydantic validation of a raw dict; none models a
raised ValidationError.  Extra keys are ignored, all seven fields are
required. -/
def validateStoryAnalysis (d : PyDict) : Option StoryAnalysis :=
  match (dictGet d "characters").bind asStrList, (dictGet d "setting").bind asStr,
        (dictGet d "objects").bind asStrList, (dictGet d "mood").bind asStr,
        (dictGet d "actions").bind asStrList, (dictGet d "complexity_score").bind asFloat,
        (dictGet d "estimated_render_cost").bind asFloat with
  | some characters, some setting, some objects, some mood, some actions, some cx, some cost =>
    some ⟨characters, setting, objects, mood, actions, cx, cost⟩
  | _, _, _, _, _, _, _ => none

/-- The dict image of a typed analysis, for feeding the cost estimator. -/
def StoryAnalysis.toDict (a : StoryAnalysis) : PyDict :=
  [("characters", .arr (a.characters.map .str)),
   ("setting", .str a.setting),
   ("objects", .arr (a.objects.map .str)),
   ("mood", .str a.mood),
   ("actions", .arr (a.actions.map .str)),
   ("complexity_score", .num a.complexity_score),
   ("estimated_render_cost", .num a.estimated_render_cost)]

/-- Outcome of the requests.post call to the model service.  exn is any
exception during the request or while reading its body (connection error,
the 45 second timeout, an unreadable JSON body); response carries the HTTP
status and, when the status is 200, the completion string of the body. -/
inductive ModelResult where
  | exn
  | response (status : ℕ) (completion : String)

/-- AdvancedStoryAnalyzer.analyze_with_llama.  The story text only feeds the
prompt, so the outcome is captured entirely by the ModelResult.  On status
200 the completion is cleaned and parsed; the estimated_render_cost entry is
then overwritten with the recomputed estimate (using the dict as parsed,
before clamping), and complexity_score is replaced by min(10, value-or-5).
Any exception on the way yields none (the source logs and returns None). -/
def analyze_with_llama (m : ModelResult) (_story_text industry : String) : Option PyDict :=
  match m with
  | .exn => none
  | .response status completion =>
    if status = 200 then
      match (cleanJsonResponse completion).bind parseJsonStr with
      | some (.obj d0) =>
        match calculate_cost_estimate d0 industry with
        | some cost =>
          match pyMin10 (dictGetD (dictSet d0 "estimated_render_cost" (.num cost))
              "complexity_score" (.num 5)) with
          | some cx =>
            some (dictSet (dictSet d0 "estimated_render_cost" (.num cost))
              "complexity_score" cx)
          | none => none
        | none => none
      | _ => none
    else none

/-- The StoryRequest pydantic model. -/
structure StoryRequest where
  text : String
  industry : String
  style : String

/-- The AnalysisResponse pydantic model. -/
structure AnalysisResponse where
  success : Bool
  analysis : StoryAnalysis
  engine : String
  industry : String
  cost_savings : ℚ

/-- The BusinessTracker state. The api_calls dict of the source has the fixed
keys analyze, generate_3d and scene_view, modelled as three counters. -/
structure Tracker where
  scenes_generated : ℕ
  analyze_calls : ℕ
  generate_3d_calls : ℕ
  scene_view_calls : ℕ
  total_cost_savings : ℚ

/-- BusinessTracker state at process start. -/
def initTracker : Tracker := ⟨0, 0, 0, 0, 0⟩

/-- BusinessTracker.track_analysis. -/
def track_analysis (t : Tracker) (cost_savings : ℚ) : Tracker :=
  { t with analyze_calls := t.analyze_calls + 1,
           total_cost_savings := t.total_cost_savings + cost_savings }

/-- BusinessTracker.track_generation. -/
def track_generation (t : Tracker) : Tracker :=
  { t with generate_3d_calls := t.generate_3d_calls + 1,
           scenes_generated := t.scenes_generated + 1 }

/-- The BusinessMetrics payload, with the two cost_savings entries flattened. -/
structure BusinessMetrics where
  total_scenes_generated : ℕ
  api_usage_analyze : ℕ
  api_usage_generate_3d : ℕ
  api_usage_scene_view : ℕ
  total_saved : ℚ
  average_per_scene : ℚ

/-- BusinessTracker.get_metrics. -/
def get_metrics (t : Tracker) : BusinessMetrics :=
  { total_scenes_generated := t.scenes_generated,
    api_usage_analyze := t.analyze_calls,
    api_usage_generate_3d := t.generate_3d_calls,
    api_usage_scene_view := t.scene_view_calls,
    total_saved := pyRound2 t.total_cost_savings,
    average_per_scene :=
      pyRound2 (t.total_cost_savings / ((max 1 t.scenes_generated : ℕ) : ℚ)) }

/-- The except-Exception branch of the analyze endpoint: build a fallback
analysis, return it with success false and engine fallback, without touching
the tracker.  If validating the fallback dict itself raised, the exception
would escape as a server error, modelled by .error. -/
def exceptPath (story_text : String) (req : StoryRequest) (t : Tracker) :
    Except Unit (AnalysisResponse × Tracker) :=
  match validateStoryAnalysis (get_fallback_analysis story_text req.industry) with
  | some a =>
    .ok ({ success := false, analysis := a, engine := "fallback",
           industry := req.industry, cost_savings := a.estimated_render_cost }, t)
  | none => .error ()

/-- The POST /api/analyze handler analyze_story.  fastapi.HTTPException is a
subclass of Exception, so the HTTPException(400) raised for empty story text
is caught by the catch-all except of the handler itself: empty input lands in
exceptPath instead of surfacing a 400.  A pydantic failure on the model dict
lands there too.  The tracker is only notified on the two in-try paths. -/
def analyze_story (m : ModelResult) (req : StoryRequest) (t : Tracker) :
    Except Unit (AnalysisResponse × Tracker) :=
  if pyStrip req.text = "" then exceptPath (pyStrip req.text) req t
  else
    match analyze_with_llama m (pyStrip req.text) req.industry with
    | some d =>
      match validateStoryAnalysis d with
      | some a =>
        .ok ({ success := true, analysis := a, engine := "llama_enhanced",
               industry := req.industry, cost_savings := a.estimated_render_cost },
             track_analysis t a.estimated_render_cost)
      | none => exceptPath (pyStrip req.text) req t
    | none =>
      match validateStoryAnalysis (get_fallback_analysis (pyStrip req.text) req.industry) with
      | some a =>
        .ok ({ success := true, analysis := a, engine := "fallback",
               industry := req.industry, cost_savings := a.estimated_render_cost },
             track_analysis t a.estimated_render_cost)
      | none => exceptPath (pyStrip req.text) req t

/-- A 3-vector of floats, the value type of the position and scale dicts. -/
structure Vec3 where
  x : ℚ
  y : ℚ
  z : ℚ

/-- The SceneElement pydantic model. -/
structure SceneElement where
  type : String
  name : String
  description : String
  position : Vec3
  scale : Vec3

/-- One camera angle entry. -/
structure CameraAngle where
  position : Vec3
  target : Vec3

/-- The lighting descriptor. -/
structure Lighting where
  type : String
  mood : String
  intensity : ℚ

/-- The SceneComposition pydantic model. -/
structure SceneComposition where
  scene_id : String
  elements : List SceneElement
  camera_angles : List CameraAngle
  lighting : Lighting

/-- The fixed character position table of generate_scene_composition. -/
def char_positions : List Vec3 := [⟨0, 0, 0⟩, ⟨3, 0, 2⟩, ⟨-2, 0, 1⟩]

/-- ThreeDGenerator.generate_scene_composition.  The fresh uuid prefix is a
parameter.  Up to 3 characters take the preset positions, up to 5 objects
are placed on the line x = i * 1.5 - 3, z = (i mod 2) * 2. -/
def generate_scene_composition (scene_id : String) (analysis : StoryAnalysis) :
    SceneComposition :=
  let charElems := (analysis.characters.take 3).enum.map (fun p =>
    { type := "character", name := p.2, description := "Main character: " ++ p.2,
      position := char_positions.getD p.1 ⟨0, 0, 0⟩,
      scale := ⟨1, 1, 1⟩ : SceneElement })
  let propElems := (analysis.objects.take 5).enum.map (fun p =>
    { type := "prop", name := p.2, description := "Interactive object: " ++ p.2,
      position := ⟨(p.1 : ℚ) * 1.5 - 3, 0, ((p.1 % 2 : ℕ) : ℚ) * 2⟩,
      scale := ⟨0.5, 0.5, 0.5⟩ : SceneElement })
  { scene_id := scene_id, elements := charElems ++ propElems,
    camera_angles := [⟨⟨0, -5, 3⟩, ⟨0, 0, 0⟩⟩, ⟨⟨5, 0, 2⟩, ⟨0, 0, 0⟩⟩],
    lighting := { type := "three_point", mood := analysis.mood, intensity := 1 } }

/-- The ThreeDGenerationRequest pydantic model. -/
structure ThreeDGenerationRequest where
  analysis : StoryAnalysis
  style : String
  quality : String

/-- The ThreeDGenerationResponse pydantic model. -/
structure ThreeDGenerationResponse where
  success : Bool
  scene_id : String
  model_urls : List String
  preview_image : String
  interactive_viewer : String
  format : String
  poly_count : ℕ
  generation_time : ℚ
  estimated_cost : ℚ

/-- ThreeDGenerator.generate_3d_assets, a deterministic mock: one url per
element, 5000 polys per url, 0.25 cost per url; the measured elapsed time
around the fixed simulated sleep is a parameter. -/
def generate_3d_assets (composition : SceneComposition) (_style _quality : String)
    (elapsed : ℚ) : ThreeDGenerationResponse :=
  let model_urls := composition.elements.map
    (fun e => "/api/mock-model/" ++ composition.scene_id ++ "/" ++ e.name)
  { success := true, scene_id := composition.scene_id, model_urls := model_urls,
    preview_image := "/api/mock-preview/" ++ composition.scene_id,
    interactive_viewer := "/scene-viewer/" ++ composition.scene_id,
    format := "GLB", poly_count := model_urls.length * 5000,
    generation_time := pyRound2 elapsed,
    estimated_cost := 0.25 * (model_urls.length : ℚ) }

/-- The POST /api/generate-scene handler: compose, render the mock assets,
then notify the tracker once. -/
def generate_scene (scene_id : String) (elapsed : ℚ) (request : ThreeDGenerationRequest)
    (t : Tracker) : ThreeDGenerationResponse × Tracker :=
  let composition := generate_scene_composition scene_id request.analysis
  (generate_3d_assets composition request.style request.quality elapsed,
   track_generation t)

/-- The typed analysis produced by validating the fallback dict. -/
def fallbackAnalysis (industry : String) : StoryAnalysis :=
  if industry = "education" then
    { characters := ["knight", "dragon"], setting := "ancient castle courtyard",
      objects := ["sword", "treasure chest", "magic crystal",
                  "educational diagram", "information panel"],
      mood := "informative and clear",
      actions := ["confronting", "guarding", "observing"],
      complexity_score := 7.5, estimated_render_cost := 1500 }
  else if industry = "architecture" then
    { characters := ["knight", "dragon"], setting := "modern architectural space",
      objects := ["building model", "blueprint", "scale figure"],
      mood := "epic and dramatic",
      actions := ["confronting", "guarding", "observing"],
      complexity_score := 7.5, estimated_render_cost := 1500 }
  else
    { characters := ["knight", "dragon"], setting := "ancient castle courtyard",
      objects := ["sword", "treasure chest", "magic crystal"],
      mood := "epic and dramatic",
      actions := ["confronting", "guarding", "observing"],
      complexity_score := 7.5, estimated_render_cost := 1500 }

/-- The per-industry base cost exactly as the claim words it. -/
def claimBaseCost (industry : String) : ℚ :=
  if industry = "gaming" then 5000
  else if industry = "education" then 3000
  else if industry = "architecture" then 8000
  else if industry = "ecommerce" then 2000
  else 3000

/-! ### Helper lemmas -/

lemma dictGet_dictSet_self (d : PyDict) (k : String) (v : JsonValue) :
    dictGet (dictSet d k v) k = some v := by
  induction d with
  | nil => simp [dictSet, dictGet]
  | cons p rest ih =>
    obtain ⟨k1, v1⟩ := p
    by_cases h : k = k1
    · simp [dictSet, dictGet, h]
    · simp [dictSet, dictGet, h, ih]

lemma dictGet_dictSet_ne (d : PyDict) (k q : String) (v : JsonValue) (h : q ≠ k) :
    dictGet (dictSet d k v) q = dictGet d q := by
  induction d with
  | nil => simp [dictSet, dictGet, h]
  | cons p rest ih =>
    obtain ⟨k1, v1⟩ := p
    by_cases h1 : k = k1
    · subst h1
      by_cases h2 : q = k
      · exact absurd h2 h
      · simp [dictSet, dictGet, h2]
    · by_cases h2 : q = k1
      · simp [dictSet, dictGet, h1, h2]
      · simp [dictSet, dictGet, h1, h2, ih]

lemma validate_fallback (s ind : String) :
    validateStoryAnalysis (get_fallback_analysis s ind) = some (fallbackAnalysis ind) := by
  unfold get_fallback_analysis fallbackAnalysis
  split_ifs <;> rfl

lemma fallbackAnalysis_cost (ind : String) :
    (fallbackAnalysis ind).estimated_render_cost = 1500 := by
  unfold fallbackAnalysis
  split_ifs <;> rfl

lemma fallbackAnalysis_cx (ind : String) :
    (fallbackAnalysis ind).complexity_score = 7.5 := by
  unfold fallbackAnalysis
  split_ifs <;> rfl

lemma base_eq_claim (ind : String) : assocGetD base_costs ind 3000 = claimBaseCost ind := by
  simp only [base_costs, assocGetD, claimBaseCost]

lemma base_pos (ind : String) : 0 < assocGetD base_costs ind 3000 := by
  simp only [base_costs, assocGetD]
  split_ifs <;> norm_num

lemma calc_toDict (a : StoryAnalysis) (ind : String) :
    calculate_cost_estimate a.toDict ind =
      some (pyRound2 (assocGetD base_costs ind 3000 * (a.complexity_score / 5)
        * (1 + ((a.characters.length : ℚ) + (a.objects.length : ℚ)) * 0.1) * 0.2)) := by
  have h : calculate_cost_estimate a.toDict ind =
      some (pyRound2 (assocGetD base_costs ind 3000 * (a.complexity_score / 5)
        * (1 + (((a.characters.map JsonValue.str).length : ℚ)
            + ((a.objects.map JsonValue.str).length : ℚ)) * 0.1) * 0.2)) := rfl
  rw [h, List.length_map, List.length_map]

lemma rhe_mono {x y : ℚ} (h : x ≤ y) : roundHalfEven x ≤ roundHalfEven y := by
  have hf : ⌊x⌋ ≤ ⌊y⌋ := Int.floor_mono h
  rcases lt_or_eq_of_le hf with hlt | heq
  · have h1 : roundHalfEven x ≤ ⌊x⌋ + 1 := by
      unfold roundHalfEven; split_ifs <;> omega
    have h2 : ⌊y⌋ ≤ roundHalfEven y := by
      unfold roundHalfEven; split_ifs <;> omega
    omega
  · have hxy : x - (⌊x⌋ : ℚ) ≤ y - (⌊y⌋ : ℚ) := by
      rw [← heq]; linarith
    unfold roundHalfEven
    rw [← heq]
    split_ifs <;> first | omega | linarith [hxy]

lemma pyRound2_mono {x y : ℚ} (h : x ≤ y) : pyRound2 x ≤ pyRound2 y := by
  unfold pyRound2
  have h1 : roundHalfEven (x * 100) ≤ roundHalfEven (y * 100) := rhe_mono (by linarith)
  have h2 : ((roundHalfEven (x * 100) : ℤ) : ℚ) ≤ ((roundHalfEven (y * 100) : ℤ) : ℚ) := by
    exact_mod_cast h1
  linarith

lemma validate_cx {d : PyDict} {a : StoryAnalysis}
    (h : validateStoryAnalysis d = some a) :
    (dictGet d "complexity_score").bind asFloat = some a.complexity_score := by
  unfold validateStoryAnalysis at h
  split at h
  · cases h; assumption
  · simp at h

lemma validate_cost {d : PyDict} {a : StoryAnalysis}
    (h : validateStoryAnalysis d = some a) :
    (dictGet d "estimated_render_cost").bind asFloat = some a.estimated_render_cost := by
  unfold validateStoryAnalysis at h
  split at h
  · cases h; assumption
  · simp at h

lemma awl_eq_some {m : ModelResult} {s i : String} {d : PyDict}
    (h : analyze_with_llama m s i = some d) :
    ∃ body d0 c cx, m = .response 200 body
      ∧ (cleanJsonResponse body).bind parseJsonStr = some (.obj d0)
      ∧ calculate_cost_estimate d0 i = some c
      ∧ pyMin10 (dictGetD (dictSet d0 "estimated_render_cost" (.num c))
          "complexity_score" (.num 5)) = some cx
      ∧ d = dictSet (dictSet d0 "estimated_render_cost" (.num c)) "complexity_score" cx := by
  cases m with
  | exn => simp [analyze_with_llama] at h
  | response status completion =>
    simp only [analyze_with_llama] at h
    by_cases hs : status = 200
    · subst hs
      rw [if_pos rfl] at h
      split at h
      · rename_i d0 heq
        split at h
        · rename_i c hc
          split at h
          · rename_i cx hcx
            cases h
            exact ⟨completion, d0, c, cx, rfl, heq, hc, hcx, rfl⟩
          · simp at h
        · simp at h
      all_goals simp at h
    · rw [if_neg hs] at h
      simp at h

lemma awl_exn (s i : String) : analyze_with_llama .exn s i = none := rfl

lemma awl_bad_status {status : ℕ} (body s i : String) (h : status ≠ 200) :
    analyze_with_llama (.response status body) s i = none := by
  simp only [analyze_with_llama]
  rw [if_neg h]

lemma awl_unparsable {body : String} (s i : String)
    (h : (cleanJsonResponse body).bind parseJsonStr = none) :
    analyze_with_llama (.response 200 body) s i = none := by
  simp only [analyze_with_llama, if_true, h]

lemma sanitize_none_bind {body : String} (h : sanitize body = none) :
    (cleanJsonResponse body).bind parseJsonStr = none := by
  unfold sanitize at h
  split at h
  · rename_i hc
    rw [hc]
    rfl
  · rename_i s hc
    rw [hc]
    split at h
    · simp at h
    · rename_i hps
      simpa using Option.not_isSome_iff_eq_none.mp hps

lemma analyze_story_except_empty {m : ModelResult} {req : StoryRequest} {t : Tracker}
    (he : pyStrip req.text = "") :
    analyze_story m req t = .ok
      ({ success := false, analysis := fallbackAnalysis req.industry, engine := "fallback",
         industry := req.industry,
         cost_savings := (fallbackAnalysis req.industry).estimated_render_cost }, t) := by
  unfold analyze_story exceptPath
  rw [if_pos he, validate_fallback]

lemma analyze_story_fallback_path {m : ModelResult} {req : StoryRequest} {t : Tracker}
    (hne : pyStrip req.text ≠ "")
    (hawl : analyze_with_llama m (pyStrip req.text) req.industry = none) :
    analyze_story m req t = .ok
      ({ success := true, analysis := fallbackAnalysis req.industry, engine := "fallback",
         industry := req.industry,
         cost_savings := (fallbackAnalysis req.industry).estimated_render_cost },
       track_analysis t (fallbackAnalysis req.industry).estimated_render_cost) := by
  unfold analyze_story
  rw [if_neg hne, hawl, validate_fallback]

lemma analyze_story_model_path {m : ModelResult} {req : StoryRequest} {t : Tracker}
    {d : PyDict} {a : StoryAnalysis} (hne : pyStrip req.text ≠ "")
    (hawl : analyze_with_llama m (pyStrip req.text) req.industry = some d)
    (hv : validateStoryAnalysis d = some a) :
    analyze_story m req t = .ok
      ({ success := true, analysis := a, engine := "llama_enhanced",
         industry := req.industry, cost_savings := a.estimated_render_cost },
       track_analysis t a.estimated_render_cost) := by
  unfold analyze_story
  rw [if_neg hne]
  simp only [hawl, hv]

lemma analyze_story_model_invalid {m : ModelResult} {req : StoryRequest} {t : Tracker}
    {d : PyDict} (hne : pyStrip req.text ≠ "")
    (hawl : analyze_with_llama m (pyStrip req.text) req.industry = some d)
    (hv : validateStoryAnalysis d = none) :
    analyze_story m req t = .ok
      ({ success := false, analysis := fallbackAnalysis req.industry, engine := "fallback",
         industry := req.industry,
         cost_savings := (fallbackAnalysis req.industry).estimated_render_cost }, t) := by
  unfold analyze_story exceptPath
  rw [if_neg hne]
  simp only [hawl, hv, validate_fallback]

/-! ### Claim theorems -/

/-- C1: the claim says analyze on story text that is empty after trimming
signals EmptyInput, surfaced as a client error (HTTP 400) with no fallback.
The code raises HTTPException(400) but its own catch-all except swallows it
(fastapi.HTTPException subclasses Exception), so analyze of the empty story
with industry gaming returns a normal fallback analysis response and no
client error, contradicting the claim: this evaluates the handler at the
failing input. -/
theorem analyze_empty_input_returns_fallback_not_error :
    analyze_story .exn ⟨"", "gaming", "fantasy"⟩ initTracker =
      .ok ({ success := false,
             analysis := { characters := ["knight", "dragon"],
                           setting := "ancient castle courtyard",
                           objects := ["sword", "treasure chest", "magic crystal"],
                           mood := "epic and dramatic",
                           actions := ["confronting", "guarding", "observing"],
                           complexity_score := 7.5, estimated_render_cost := 1500 },
             engine := "fallback", industry := "gaming", cost_savings := 1500 },
           initTracker) := rfl

/-- C2 counterexample: after a model failure with industry gaming, the
returned fallback analysis carries the baked-in cost 1500, while
CostEstimator applied to that final analysis and the same industry yields
2250, so the cost is not recomputed by CostEstimator on the fallback path. -/
theorem fallback_cost_not_recomputed_cex :
    analyze_story .exn ⟨"a story", "gaming", "fantasy"⟩ initTracker =
      .ok ({ success := true,
             analysis := { characters := ["knight", "dragon"],
                           setting := "ancient castle courtyard",
                           objects := ["sword", "treasure chest", "magic crystal"],
                           mood := "epic and dramatic",
                           actions := ["confronting", "guarding", "observing"],
                           complexity_score := 7.5, estimated_render_cost := 1500 },
             engine := "fallback", industry := "gaming", cost_savings := 1500 },
           ⟨0, 1, 0, 0, 1500⟩)
    ∧ calculate_cost_estimate
        (StoryAnalysis.toDict { characters := ["knight", "dragon"],
                                setting := "ancient castle courtyard",
                                objects := ["sword", "treasure chest", "magic crystal"],
                                mood := "epic and dramatic",
                                actions := ["confronting", "guarding", "observing"],
                                complexity_score := 7.5, estimated_render_cost := 1500 })
        "gaming" = some 2250
    ∧ (1500 : ℚ) ≠ 2250 := ⟨rfl, rfl, by norm_num⟩

/-- C2 amended: only the model-success path overwrites the cost: whenever
analyze_with_llama returns a dict, its estimated_render_cost entry is the
CostEstimator value computed from the parsed model dict (before the
complexity clamp), so a model-supplied cost is never kept on that path;
the fallback dict instead always carries the baked-in cost 1500 for every
industry, not a CostEstimator recomputation. -/
theorem cost_overwritten_on_model_path_only :
    (∀ (status : ℕ) (body s ind : String) (d : PyDict),
        analyze_with_llama (.response status body) s ind = some d →
        ∃ d0 c, (cleanJsonResponse body).bind parseJsonStr = some (.obj d0)
          ∧ calculate_cost_estimate d0 ind = some c
          ∧ dictGet d "estimated_render_cost" = some (.num c))
    ∧ (∀ s ind, dictGet (get_fallback_analysis s ind) "estimated_render_cost" =
        some (.num 1500)) := by
  constructor
  · intro status body s ind d h
    obtain ⟨body2, d0, c, cx, hm, hclean, hc, hcx, hd⟩ := awl_eq_some h
    injection hm with h1 h2
    subst h1
    subst h2
    refine ⟨d0, c, hclean, hc, ?_⟩
    subst hd
    rw [dictGet_dictSet_ne _ _ _ _ (by decide), dictGet_dictSet_self]
  · intro s ind
    unfold get_fallback_analysis
    split_ifs <;> rfl

/-- C2 witness: a concrete successful model call through which the cost
entry is the recomputed estimate 800. -/
theorem cost_overwritten_on_model_path_only_witness :
    ∃ d0 c,
      (cleanJsonResponse "\x7b\"complexity_score\": 4\x7d").bind parseJsonStr =
        some (.obj d0)
      ∧ calculate_cost_estimate d0 "gaming" = some c
      ∧ dictGet [("complexity_score", JsonValue.num 4),
                 ("estimated_render_cost", JsonValue.num 800)]
          "estimated_render_cost" = some (.num c) :=
  cost_overwritten_on_model_path_only.1 200 "\x7b\"complexity_score\": 4\x7d" "x" "gaming"
    [("complexity_score", JsonValue.num 4), ("estimated_render_cost", JsonValue.num 800)] rfl

/-- C3 counterexample: a model completion with complexity_score 0 (below 1)
flows through analyze unchanged: the returned analysis has complexityScore 0,
which is not in the interval from 1 to 10, so no lower clamp exists. -/
theorem complexity_below_one_not_clamped_cex :
    analyze_story
        (.response 200 "\x7b\"characters\": [\"a\"], \"setting\": \"s\", \"objects\": [], \"mood\": \"m\", \"actions\": [], \"complexity_score\": 0\x7d")
        ⟨"a tale", "gaming", "fantasy"⟩ initTracker =
      .ok ({ success := true,
             analysis := { characters := ["a"], setting := "s", objects := [],
                           mood := "m", actions := [], complexity_score := 0,
                           estimated_render_cost := 0 },
             engine := "llama_enhanced", industry := "gaming", cost_savings := 0 },
           ⟨0, 1, 0, 0, 0⟩)
    ∧ ¬((1 : ℚ) ≤ 0) := ⟨rfl, by norm_num⟩

/-- C3 amended: every analysis returned by analyze, on every path, has
complexityScore at most 10 (the model path applies min(10, value), the
fallback paths use the fixed 7.5); there is no lower clamp. -/
theorem complexity_clamped_above_only :
    ∀ (m : ModelResult) (req : StoryRequest) (t : Tracker) (r : AnalysisResponse)
      (t1 : Tracker),
      analyze_story m req t = .ok (r, t1) → r.analysis.complexity_score ≤ 10 := by
  intro m req t r t1 h
  unfold analyze_story at h
  by_cases he : pyStrip req.text = ""
  · rw [if_pos he] at h
    unfold exceptPath at h
    rw [validate_fallback] at h
    cases h
    show (fallbackAnalysis req.industry).complexity_score ≤ 10
    rw [fallbackAnalysis_cx]
    norm_num
  · rw [if_neg he] at h
    split at h
    · rename_i d hawl
      split at h
      · rename_i a hv
        cases h
        show a.complexity_score ≤ 10
        obtain ⟨body, d0, c, cx, hm, hclean, hc, hcx, hd⟩ := awl_eq_some hawl
        subst hd
        have h1 := validate_cx hv
        rw [dictGet_dictSet_self] at h1
        simp only [Option.some_bind] at h1
        unfold pyMin10 at hcx
        split at hcx
        · rename_i q hq
          cases hcx
          simp only [asFloat, Option.some.injEq] at h1
          rw [← h1]
          exact min_le_left 10 q
        · rename_i b hb
          cases hcx
          simp [asFloat] at h1
        · simp at hcx
      · rename_i hv
        unfold exceptPath at h
        rw [validate_fallback] at h
        cases h
        show (fallbackAnalysis req.industry).complexity_score ≤ 10
        rw [fallbackAnalysis_cx]
        norm_num
    · rename_i hawl
      rw [validate_fallback] at h
      cases h
      show (fallbackAnalysis req.industry).complexity_score ≤ 10
      rw [fallbackAnalysis_cx]
      norm_num

/-- C3 witness: the amended theorem applied to a concrete fallback run. -/
theorem complexity_clamped_above_only_witness :
    ({ success := true, analysis := fallbackAnalysis "gaming", engine := "fallback",
       industry := "gaming", cost_savings := 1500 } : AnalysisResponse).analysis.complexity_score
      ≤ 10 :=
  complexity_clamped_above_only .exn ⟨"a story", "gaming", "fantasy"⟩ initTracker
    { success := true, analysis := fallbackAnalysis "gaming", engine := "fallback",
      industry := "gaming", cost_savings := 1500 } ⟨0, 1, 0, 0, 1500⟩ rfl

/-- C4 counterexample: on a successful model call the engine tag returned is
the literal string llama_enhanced, which is neither model nor fallback, so
the tag is not drawn from the claimed two-element set. -/
theorem engine_tag_is_llama_enhanced_cex :
    analyze_story
        (.response 200 "\x7b\"characters\": [\"hero\"], \"setting\": \"castle\", \"objects\": [\"sword\"], \"mood\": \"dark\", \"actions\": [\"fight\"], \"complexity_score\": 4, \"estimated_render_cost\": 99999\x7d")
        ⟨"story", "gaming", "fantasy"⟩ initTracker =
      .ok ({ success := true,
             analysis := { characters := ["hero"], setting := "castle",
                           objects := ["sword"], mood := "dark", actions := ["fight"],
                           complexity_score := 4, estimated_render_cost := 960 },
             engine := "llama_enhanced", industry := "gaming", cost_savings := 960 },
           ⟨0, 1, 0, 0, 960⟩)
    ∧ "llama_enhanced" ≠ "model" ∧ "llama_enhanced" ≠ "fallback" :=
  ⟨rfl, by decide, by decide⟩

/-- C4 amended: the engine tag is always llama_enhanced (model path) or
fallback, analyze never returns an error, and every model failure mode
(non-success status, exception or timeout, unusable completion) yields
engine fallback with a validated analysis. -/
theorem engine_fallback_on_every_model_failure :
    (∀ (m : ModelResult) (req : StoryRequest) (t : Tracker) (r : AnalysisResponse)
        (t1 : Tracker), analyze_story m req t = .ok (r, t1) →
        r.engine = "llama_enhanced" ∨ r.engine = "fallback")
    ∧ (∀ (m : ModelResult) (req : StoryRequest) (t : Tracker),
        ∃ out, analyze_story m req t = .ok out)
    ∧ (∀ (status : ℕ) (body : String) (req : StoryRequest) (t : Tracker),
        status ≠ 200 →
        ∃ r t1, analyze_story (.response status body) req t = .ok (r, t1)
          ∧ r.engine = "fallback")
    ∧ (∀ (req : StoryRequest) (t : Tracker),
        ∃ r t1, analyze_story .exn req t = .ok (r, t1) ∧ r.engine = "fallback")
    ∧ (∀ (body : String) (req : StoryRequest) (t : Tracker),
        sanitize body = none →
        ∃ r t1, analyze_story (.response 200 body) req t = .ok (r, t1)
          ∧ r.engine = "fallback") := by
  refine ⟨?_, ?_, ?_, ?_, ?_⟩
  · intro m req t r t1 h
    unfold analyze_story at h
    by_cases he : pyStrip req.text = ""
    · rw [if_pos he] at h
      unfold exceptPath at h
      rw [validate_fallback] at h
      cases h
      right; rfl
    · rw [if_neg he] at h
      split at h
      · rename_i d hawl
        split at h
        · rename_i a hv
          cases h
          left; rfl
        · rename_i hv
          unfold exceptPath at h
          rw [validate_fallback] at h
          cases h
          right; rfl
      · rename_i hawl
        rw [validate_fallback] at h
        cases h
        right; rfl
  · intro m req t
    by_cases he : pyStrip req.text = ""
    · exact ⟨_, analyze_story_except_empty he⟩
    · cases hawl : analyze_with_llama m (pyStrip req.text) req.industry with
      | none => exact ⟨_, analyze_story_fallback_path he hawl⟩
      | some d =>
        cases hv : validateStoryAnalysis d with
        | some a => exact ⟨_, analyze_story_model_path he hawl hv⟩
        | none => exact ⟨_, analyze_story_model_invalid he hawl hv⟩
  · intro status body req t hs
    by_cases he : pyStrip req.text = ""
    · exact ⟨_, _, analyze_story_except_empty he, rfl⟩
    · exact ⟨_, _, analyze_story_fallback_path he (awl_bad_status _ _ _ hs), rfl⟩
  · intro req t
    by_cases he : pyStrip req.text = ""
    · exact ⟨_, _, analyze_story_except_empty he, rfl⟩
    · exact ⟨_, _, analyze_story_fallback_path he (awl_exn _ _), rfl⟩
  · intro body req t hs
    by_cases he : pyStrip req.text = ""
    · exact ⟨_, _, analyze_story_except_empty he, rfl⟩
    · exact ⟨_, _, analyze_story_fallback_path he
        (awl_unparsable _ _ (sanitize_none_bind hs)), rfl⟩

/-- C4 witness: a concrete non-success status resolves to engine fallback. -/
theorem engine_fallback_on_every_model_failure_witness :
    ∃ r t1, analyze_story (.response 500 "server error")
        ⟨"a story", "gaming", "fantasy"⟩ initTracker = .ok (r, t1)
      ∧ r.engine = "fallback" :=
  engine_fallback_on_every_model_failure.2.2.1 500 "server error"
    ⟨"a story", "gaming", "fantasy"⟩ initTracker (by decide)

/-- C5: the sanitizer only ever returns a string that parses as JSON (it never
invents content); when it fails the combined clean-and-parse step fails; a
completion fenced as a json code block containing a JSON object is extracted
and parses; prose with an embedded object yields exactly the brace slice; a
completion with no JSON at all fails; and such a failure makes analyze fall
back rather than error. -/
theorem sanitize_behaviour :
    (∀ raw s, sanitize raw = some s → (parseJsonStr s).isSome = true)
    ∧ (∀ raw, sanitize raw = none → (cleanJsonResponse raw).bind parseJsonStr = none)
    ∧ sanitize "```json\n\x7b\"a\": 1\x7d\n```" = some "\n\x7b\"a\": 1\x7d\n"
    ∧ sanitize "Here is the result: \x7b\"x\": 2\x7d. Enjoy!" = some "\x7b\"x\": 2\x7d"
    ∧ sanitize "there is no json here" = none
    ∧ (∀ (body : String) (req : StoryRequest) (t : Tracker),
        sanitize body = none → pyStrip req.text ≠ "" →
        analyze_story (.response 200 body) req t =
          .ok ({ success := true, analysis := fallbackAnalysis req.industry,
                 engine := "fallback", industry := req.industry,
                 cost_savings := (fallbackAnalysis req.industry).estimated_render_cost },
               track_analysis t (fallbackAnalysis req.industry).estimated_render_cost)) := by
  refine ⟨?_, ?_, rfl, rfl, rfl, ?_⟩
  · intro raw s h
    unfold sanitize at h
    split at h
    · exact absurd h (by simp)
    · rename_i u hu
      by_cases hc : (parseJsonStr u).isSome = true
      · rw [if_pos hc] at h
        cases h
        exact hc
      · rw [if_neg hc] at h
        exact absurd h (by simp)
  · intro raw h
    exact sanitize_none_bind h
  · intro body req t hs hne
    exact analyze_story_fallback_path hne (awl_unparsable _ _ (sanitize_none_bind hs))

/-- C5 witness: the first clause at a concrete sanitized completion. -/
theorem sanitize_behaviour_witness :
    (parseJsonStr "\x7b\"k\": true\x7d").isSome = true :=
  sanitize_behaviour.1 "\x7b\"k\": true\x7d" "\x7b\"k\": true\x7d" rfl

/-- C6: for every analysis and industry, the cost estimator returns exactly
the claimed formula: industry base cost (gaming 5000, education 3000,
architecture 8000, ecommerce 2000, anything else 3000) times complexity
over 5, times 1 plus 0.1 per character-plus-object, times 0.2, rounded to
two decimals. -/
theorem cost_estimate_formula (a : StoryAnalysis) (industry : String) :
    calculate_cost_estimate a.toDict industry =
      some (pyRound2 (claimBaseCost industry * (a.complexity_score / 5)
        * (1 + 0.1 * ((a.characters.length : ℚ) + (a.objects.length : ℚ))) * 0.2)) := by
  rw [calc_toDict]
  refine congrArg some (congrArg pyRound2 ?_)
  rw [base_eq_claim]
  ring

/-- C7 counterexample: two analyses identical except that the second has one
more character; with the shared complexityScore -5 (reachable, since the code
has no lower clamp) the estimate drops from -1000 to -1100 although the
combined count grew, so the cost is not monotone in the count for every
fixed analysis. -/
theorem cost_not_monotone_in_counts_cex :
    calculate_cost_estimate
        (StoryAnalysis.toDict ⟨[], "", [], "", [], -5, 0⟩) "gaming" = some (-1000)
    ∧ calculate_cost_estimate
        (StoryAnalysis.toDict ⟨["a"], "", [], "", [], -5, 0⟩) "gaming" = some (-1100)
    ∧ (0 + 0 : ℕ) ≤ 1 + 0
    ∧ ¬((-1000 : ℚ) ≤ -1100) :=
  ⟨rfl, rfl, by decide, by decide⟩

/-- C7 amended: the estimator is a pure function (identical inputs give
identical costs), the cost is monotone non-decreasing in complexityScore
with the counts fixed, and monotone non-decreasing in the combined
character-plus-object count provided complexityScore is non-negative (as
every spec-conforming analysis with complexityScore in the 1 to 10 range
is). -/
theorem cost_estimator_deterministic_and_monotone :
    (∀ (a b : StoryAnalysis) (ind : String), a = b →
        calculate_cost_estimate a.toDict ind = calculate_cost_estimate b.toDict ind)
    ∧ (∀ (a b : StoryAnalysis) (ind : String) (ca cb : ℚ),
        calculate_cost_estimate a.toDict ind = some ca →
        calculate_cost_estimate b.toDict ind = some cb →
        a.complexity_score ≤ b.complexity_score →
        a.characters.length = b.characters.length →
        a.objects.length = b.objects.length →
        ca ≤ cb)
    ∧ (∀ (a b : StoryAnalysis) (ind : String) (ca cb : ℚ),
        calculate_cost_estimate a.toDict ind = some ca →
        calculate_cost_estimate b.toDict ind = some cb →
        a.complexity_score = b.complexity_score →
        0 ≤ a.complexity_score →
        a.characters.length + a.objects.length ≤ b.characters.length + b.objects.length →
        ca ≤ cb) := by
  refine ⟨fun a b ind h => by rw [h], ?_, ?_⟩
  · intro a b ind ca cb ha hb hcx hc1 hc2
    rw [calc_toDict] at ha hb
    injection ha with ha1
    injection hb with hb1
    subst ha1
    subst hb1
    apply pyRound2_mono
    rw [hc1, hc2]
    have hb0 := base_pos ind
    have hk : (0 : ℚ) ≤ 1 + ((b.characters.length : ℚ) + (b.objects.length : ℚ)) * 0.1 := by
      positivity
    nlinarith [mul_nonneg (mul_nonneg hb0.le hk) (sub_nonneg.mpr hcx)]
  · intro a b ind ca cb ha hb hcxeq hcx0 hcnt
    rw [calc_toDict] at ha hb
    injection ha with ha1
    injection hb with hb1
    subst ha1
    subst hb1
    apply pyRound2_mono
    rw [hcxeq]
    have hb0 := base_pos ind
    have hcnt2 : ((a.characters.length : ℚ) + (a.objects.length : ℚ))
        ≤ ((b.characters.length : ℚ) + (b.objects.length : ℚ)) := by
      exact_mod_cast hcnt
    have hc0 : (0 : ℚ) ≤ b.complexity_score := hcxeq ▸ hcx0
    nlinarith [mul_nonneg (mul_nonneg hb0.le hc0) (sub_nonneg.mpr hcnt2)]

/-- C7 witness: the complexity-monotonicity clause at two concrete analyses
with costs 200 and 400. -/
theorem cost_estimator_deterministic_and_monotone_witness :
    (200 : ℚ) ≤ 400 :=
  cost_estimator_deterministic_and_monotone.2.1
    ⟨[], "", [], "", [], 1, 0⟩ ⟨[], "", [], "", [], 2, 0⟩ "gaming" 200 400
    rfl rfl (by decide) rfl rfl

/-- C8: compose on an analysis with at least 3 characters and at least 5
objects yields exactly the 3 leading characters at the preset coordinates
(0,0,0), (3,0,2), (-2,0,1) followed by exactly the 5 leading props on the
line x = i * 1.5 - 3, y = 0, z = (i mod 2) * 2; the excess characters and
props are dropped without error. -/
theorem compose_layout (c0 c1 c2 : String) (crest : List String)
    (o0 o1 o2 o3 o4 : String) (orest : List String) (st md : String)
    (acts : List String) (cx cost : ℚ) (sid : String) :
    (generate_scene_composition sid
        ⟨c0 :: c1 :: c2 :: crest, st, o0 :: o1 :: o2 :: o3 :: o4 :: orest,
         md, acts, cx, cost⟩).elements
      = [⟨"character", c0, "Main character: " ++ c0, ⟨0, 0, 0⟩, ⟨1, 1, 1⟩⟩,
         ⟨"character", c1, "Main character: " ++ c1, ⟨3, 0, 2⟩, ⟨1, 1, 1⟩⟩,
         ⟨"character", c2, "Main character: " ++ c2, ⟨-2, 0, 1⟩, ⟨1, 1, 1⟩⟩,
         ⟨"prop", o0, "Interactive object: " ++ o0, ⟨-3, 0, 0⟩, ⟨0.5, 0.5, 0.5⟩⟩,
         ⟨"prop", o1, "Interactive object: " ++ o1, ⟨-1.5, 0, 2⟩, ⟨0.5, 0.5, 0.5⟩⟩,
         ⟨"prop", o2, "Interactive object: " ++ o2, ⟨0, 0, 0⟩, ⟨0.5, 0.5, 0.5⟩⟩,
         ⟨"prop", o3, "Interactive object: " ++ o3, ⟨1.5, 0, 2⟩, ⟨0.5, 0.5, 0.5⟩⟩,
         ⟨"prop", o4, "Interactive object: " ++ o4, ⟨3, 0, 0⟩, ⟨0.5, 0.5, 0.5⟩⟩]
    ∧ ((generate_scene_composition sid
        ⟨c0 :: c1 :: c2 :: crest, st, o0 :: o1 :: o2 :: o3 :: o4 :: orest,
         md, acts, cx, cost⟩).elements.filter (fun e => e.type == "character")).length = 3
    ∧ ((generate_scene_composition sid
        ⟨c0 :: c1 :: c2 :: crest, st, o0 :: o1 :: o2 :: o3 :: o4 :: orest,
         md, acts, cx, cost⟩).elements.filter (fun e => e.type == "prop")).length = 5 := by
  refine ⟨?_, rfl, rfl⟩
  norm_num [generate_scene_composition, char_positions, List.enum, List.enumFrom]

/-- C9: the claim says BusinessTracker is notified exactly once on every
invocation of analyze.  Evaluating analyze at the failing input (empty story
text) from a non-trivial tracker state shows the exception path returns a
fallback analysis while leaving the tracker untouched, so that invocation is
never tracked; for comparison, a non-empty invocation bumps the analyze
counter by one and adds the final 1500 estimate, and a scene generation bumps
the generation counters by one. -/
theorem tracker_skipped_on_empty_input :
    analyze_story .exn ⟨"", "gaming", "fantasy"⟩ ⟨5, 7, 3, 2, 900⟩ =
      .ok ({ success := false, analysis := fallbackAnalysis "gaming",
             engine := "fallback", industry := "gaming", cost_savings := 1500 },
           ⟨5, 7, 3, 2, 900⟩)
    ∧ analyze_story .exn ⟨"another story", "gaming", "fantasy"⟩ ⟨5, 7, 3, 2, 900⟩ =
      .ok ({ success := true, analysis := fallbackAnalysis "gaming",
             engine := "fallback", industry := "gaming", cost_savings := 1500 },
           ⟨5, 8, 3, 2, 2400⟩)
    ∧ (generate_scene "abc12345" 2
        ⟨fallbackAnalysis "gaming", "fantasy", "preview"⟩ ⟨5, 7, 3, 2, 900⟩).2 =
      ⟨6, 7, 4, 2, 900⟩ :=
  ⟨rfl, rfl, rfl⟩

/-- C10 counterexample: a reachable tracker state with zero scenes generated
but 1500 of tracked savings (one fallback analysis, no generation) makes
get_metrics report an average per scene of 1500, not 0, refuting the claimed
average of 0.0 for every zero-scene state. -/
theorem metrics_avg_not_zero_with_zero_scenes_cex :
    (track_analysis initTracker 1500).scenes_generated = 0
    ∧ (get_metrics (track_analysis initTracker 1500)).average_per_scene = 1500
    ∧ (1500 : ℚ) ≠ 0 :=
  ⟨rfl, rfl, by norm_num⟩

/-- C10 amended: get_metrics never divides by zero because the divisor is
max(1, scenes generated), which is a non-zero rational for every tracker
state; with zero scenes the average equals the rounded total savings divided
by one, which is 0 exactly in the initial state. -/
theorem metrics_no_div_by_zero :
    (∀ t : Tracker, ((max 1 t.scenes_generated : ℕ) : ℚ) ≠ 0
        ∧ (get_metrics t).average_per_scene =
          pyRound2 (t.total_cost_savings / ((max 1 t.scenes_generated : ℕ) : ℚ)))
    ∧ (∀ t : Tracker, t.scenes_generated = 0 →
        (get_metrics t).average_per_scene = pyRound2 t.total_cost_savings)
    ∧ (get_metrics initTracker).average_per_scene = 0 := by
  refine ⟨fun t => ⟨?_, rfl⟩, fun t h => ?_, rfl⟩
  · exact Nat.cast_ne_zero.mpr (by omega)
  · unfold get_metrics
    rw [h]
    norm_num

/-- C10 witness: a zero-scene tracker with 77 of savings reports the rounded
total as the average. -/
theorem metrics_no_div_by_zero_witness :
    (get_metrics ⟨0, 2, 0, 0, 77⟩).average_per_scene = pyRound2 77 :=
  metrics_no_div_by_zero.2.1 ⟨0, 2, 0, 0, 77⟩ rfl
